import Mathlib

/-!
Verification of the Action Network → Google Calendar + Discord sync service
(`src/app.py`, class `ActionNetworkGoogleDiscordSync` plus the module-level
`event_mappings` table).

The Python code is shallowly embedded: every function below is translated
from the corresponding source function (names are kept); network calls are
abstracted by oracles in a `World` record, and each `try/except` block of
the source becomes an `Option`-valued result.  Python truthiness of strings
(`if s:`) is modelled by `pyTruthy`/a comparison with the empty string.
-/

namespace AppSync

/-- Python truthiness of an optional string: `None` and `""` are falsy. -/
def pyTruthy (o : Option String) : Bool :=
  o.getD "" != ""

/-- `str.lower()` (the claims only involve ASCII text). -/
def pyLower (s : String) : String :=
  String.mk (s.data.map Char.toLower)

/-- `str.endswith(suffix)`. -/
def strEndsWith (s suffix : String) : Bool :=
  suffix.data.isSuffixOf s.data

/-- Suffix of `s` after the last occurrence of `c`; the whole string when `c`
does not occur.  This is `s.split(c)[-1]` in Python. -/
def afterLast (c : Char) (s : String) : String :=
  String.mk ((s.data.reverse.takeWhile (fun x => x ≠ c)).reverse)

/-! ## Datetime model

`datetime.fromisoformat`, `pytz.timezone('US/Central')` localization and the
conversion to UTC used by `convert_to_utc` (src/app.py lines 168-206) and by
the end-time synthesis (lines 212-218).  The US/Central offset is modelled by
the post-2007 United States DST rule (CDT = UTC-5 from 2:00 standard time on
the second Sunday of March to 2:00 standard time on the first Sunday of
November, CST = UTC-6 otherwise); `pytz.localize` with its default
`is_dst=False` resolves ambiguous and nonexistent wall times to CST, which is
what the interval bounds below encode.  All dates appearing in the claims are
from this era. -/

structure NaiveDT where
  year : Nat
  month : Nat
  day : Nat
  hour : Nat
  minute : Nat
  second : Nat
  micro : Nat
deriving DecidableEq, Repr

def isLeap (y : Nat) : Bool :=
  (y % 4 = 0 && y % 100 ≠ 0) || y % 400 = 0

def daysInMonth (y m : Nat) : Nat :=
  if m = 2 then (if isLeap y then 29 else 28)
  else if m = 4 ∨ m = 6 ∨ m = 9 ∨ m = 11 then 30
  else 31

/-- Day of week (0 = Sunday) by Sakamoto's method; valid for y ≥ 1. -/
def dayOfWeek (y m d : Nat) : Nat :=
  let t : List Nat := [0, 3, 2, 5, 0, 3, 5, 1, 4, 6, 2, 4]
  let y2 := if m < 3 then y - 1 else y
  (y2 + y2 / 4 - y2 / 100 + y2 / 400 + t.getD (m - 1) 0 + d) % 7

def firstSundayOfMonth (y m : Nat) : Nat :=
  1 + ((7 - dayOfWeek y m 1) % 7)

def secondSundayOfMarch (y : Nat) : Nat :=
  firstSundayOfMonth y 3 + 7

def firstSundayOfNovember (y : Nat) : Nat :=
  firstSundayOfMonth y 11

/-- Lexicographic key on (month, day, hour, minute) for DST comparisons. -/
def dtKey (m d h mi : Nat) : Nat :=
  ((m * 32 + d) * 24 + h) * 60 + mi

/-- Whether a naive wall-clock time is in Central Daylight Time under
`pytz.localize(..., is_dst=False)` (ambiguous/nonexistent times resolve to
standard time). -/
def isCDT (dt : NaiveDT) : Bool :=
  let k := dtKey dt.month dt.day dt.hour dt.minute
  dtKey 3 (secondSundayOfMarch dt.year) 3 0 ≤ k &&
    k < dtKey 11 (firstSundayOfNovember dt.year) 1 0

def nextDay (dt : NaiveDT) : NaiveDT :=
  if dt.day < daysInMonth dt.year dt.month then { dt with day := dt.day + 1 }
  else if dt.month < 12 then { dt with month := dt.month + 1, day := 1 }
  else { dt with year := dt.year + 1, month := 1, day := 1 }

/-- Add `h ≤ 23` hours to a wall-clock time, rolling over at most one day. -/
def addHours (dt : NaiveDT) (h : Nat) : NaiveDT :=
  let t := dt.hour + h
  if t < 24 then { dt with hour := t } else nextDay { dt with hour := t - 24 }

/-- `central.localize(dt).astimezone(pytz.UTC)`: add 5 hours in CDT, 6 in CST.
`none` models the `OverflowError` past `datetime.max` (year 9999), which the
source catches. -/
def centralToUtc (dt : NaiveDT) : Option NaiveDT :=
  let u := addHours dt (if isCDT dt then 5 else 6)
  if u.year > 9999 then none else some u

def pad2 (n : Nat) : String :=
  if n < 10 then "0" ++ toString n else toString n

def pad4 (n : Nat) : String :=
  if n < 10 then "000" ++ toString n
  else if n < 100 then "00" ++ toString n
  else if n < 1000 then "0" ++ toString n
  else toString n

def pad6 (n : Nat) : String :=
  if n < 10 then "00000" ++ toString n
  else if n < 100 then "0000" ++ toString n
  else if n < 1000 then "000" ++ toString n
  else if n < 10000 then "00" ++ toString n
  else if n < 100000 then "0" ++ toString n
  else toString n

/-- The naive part of `datetime.isoformat()` (microseconds printed only when
nonzero, as six digits). -/
def isoNaive (dt : NaiveDT) : String :=
  pad4 dt.year ++ "-" ++ pad2 dt.month ++ "-" ++ pad2 dt.day ++ "T" ++
    pad2 dt.hour ++ ":" ++ pad2 dt.minute ++ ":" ++ pad2 dt.second ++
    (if dt.micro = 0 then "" else "." ++ pad6 dt.micro)

/-- `dt_utc.isoformat().replace('+00:00', 'Z')` for a UTC-aware datetime. -/
def isoformatZ (dt : NaiveDT) : String :=
  isoNaive dt ++ "Z"

/-! ### Parsing (`datetime.fromisoformat`)

Modelled on the extended ISO-8601 forms actually produced by the upstream API
and by `isoformat`: `YYYY-MM-DD`, optionally followed by `THH:MM`,
`THH:MM:SS` or `THH:MM:SS.ffffff` (1-6 fractional digits), optionally (in the
offset-aware variant) followed by a `+HH:MM`/`-HH:MM` offset.  Any other
input parses to `none`, which the source's `except` branches turn into the
fail-open behaviour. -/

def digitVal (c : Char) : Option Nat :=
  if c.isDigit then some (c.toNat - 48) else none

def parseNDigits : Nat → Nat → List Char → Option (Nat × List Char)
  | 0, acc, cs => some (acc, cs)
  | Nat.succ k, acc, cs =>
    match cs with
    | [] => none
    | c :: cs2 =>
      match digitVal c with
      | some v => parseNDigits k (acc * 10 + v) cs2
      | none => none

def expectChar (c : Char) : List Char → Option (List Char)
  | [] => none
  | x :: xs => if x = c then some xs else none

def parseDate (cs : List Char) : Option (Nat × Nat × Nat × List Char) := do
  let (y, cs) ← parseNDigits 4 0 cs
  let cs ← expectChar '-' cs
  let (mo, cs) ← parseNDigits 2 0 cs
  let cs ← expectChar '-' cs
  let (d, cs) ← parseNDigits 2 0 cs
  if 1 ≤ y ∧ 1 ≤ mo ∧ mo ≤ 12 ∧ 1 ≤ d ∧ d ≤ daysInMonth y mo then
    some (y, mo, d, cs)
  else none

def parseMicro (cs : List Char) : Option (Nat × List Char) :=
  let digits := cs.takeWhile Char.isDigit
  if 1 ≤ digits.length ∧ digits.length ≤ 6 then
    let v := digits.foldl (fun acc c => acc * 10 + (c.toNat - 48)) 0
    some (v * 10 ^ (6 - digits.length), cs.dropWhile Char.isDigit)
  else none

def parseTime (cs : List Char) : Option (Nat × Nat × Nat × Nat × List Char) := do
  let (h, cs) ← parseNDigits 2 0 cs
  let cs ← expectChar ':' cs
  let (mi, cs) ← parseNDigits 2 0 cs
  if h ≤ 23 ∧ mi ≤ 59 then
    match cs with
    | ':' :: cs2 => do
      let (s, cs3) ← parseNDigits 2 0 cs2
      if s ≤ 59 then
        match cs3 with
        | '.' :: cs4 => do
          let (us, cs5) ← parseMicro cs4
          pure (h, mi, s, us, cs5)
        | _ => pure (h, mi, s, 0, cs3)
      else none
    | _ => pure (h, mi, 0, 0, cs)
  else none

/-- `datetime.fromisoformat` on a naive (offset-free) string; the whole
string must be consumed. -/
def fromisoformat (s : String) : Option NaiveDT := do
  let (y, mo, d, cs) ← parseDate s.data
  match cs with
  | [] => pure ⟨y, mo, d, 0, 0, 0, 0⟩
  | 'T' :: cs2 => do
    let (h, mi, sec, us, rest) ← parseTime cs2
    match rest with
    | [] => pure ⟨y, mo, d, h, mi, sec, us⟩
    | _ => none
  | _ => none

/-- A parsed UTC offset, sign-normalized the way `timezone(timedelta(...))`
prints it (`-00:00` becomes `+00:00`). -/
structure TzOff where
  neg : Bool
  offH : Nat
  offM : Nat
deriving DecidableEq, Repr

def mkTzOff (neg : Bool) (h m : Nat) : TzOff :=
  if h = 0 ∧ m = 0 then ⟨false, 0, 0⟩ else ⟨neg, h, m⟩

/-- `datetime.fromisoformat` allowing a trailing `±HH:MM` offset. -/
def fromisoformatOffset (s : String) : Option (NaiveDT × Option TzOff) := do
  let (y, mo, d, cs) ← parseDate s.data
  match cs with
  | [] => pure (⟨y, mo, d, 0, 0, 0, 0⟩, none)
  | 'T' :: cs2 => do
    let (h, mi, sec, us, rest) ← parseTime cs2
    let dt : NaiveDT := ⟨y, mo, d, h, mi, sec, us⟩
    match rest with
    | [] => pure (dt, none)
    | sign :: cs3 =>
      if sign = '+' ∨ sign = '-' then do
        let (oh, cs4) ← parseNDigits 2 0 cs3
        let cs5 ← expectChar ':' cs4
        let (om, cs6) ← parseNDigits 2 0 cs5
        if oh ≤ 23 ∧ om ≤ 59 ∧ cs6 = [] then
          pure (dt, some (mkTzOff (sign = '-') oh om))
        else none
      else none
  | _ => none

/-- `datetime.isoformat()` of a possibly offset-aware value. -/
def isoWithOffset (dt : NaiveDT) (off : Option TzOff) : String :=
  isoNaive dt ++
    match off with
    | none => ""
    | some o => (if o.neg then "-" else "+") ++ pad2 o.offH ++ ":" ++ pad2 o.offM

/-! ## `convert_to_utc` (src/app.py lines 168-206) -/

/-- The body of `convert_to_utc` on a nonempty string: `Z`-suffixed values are
stripped, re-interpreted as US Central and converted to true UTC; strings with
a `+` anywhere or a `-` after the last `T` are passed through; anything else
is interpreted as US Central; every parse failure (and the overflow case)
falls back to the original string. -/
def convertStr (s : String) : String :=
  if strEndsWith s "Z" then
    match fromisoformat (String.mk s.data.dropLast) with
    | some dt =>
      match centralToUtc dt with
      | some u => isoformatZ u
      | none => s
    | none => s
  else if s.data.contains '+' || (afterLast 'T' s).data.contains '-' then s
  else
    match fromisoformat s with
    | some dt =>
      match centralToUtc dt with
      | some u => isoformatZ u
      | none => s
    | none => s

/-- `convert_to_utc(time_str)`: `if not time_str: return None`, then
`convertStr`. -/
def convert_to_utc (time_str : Option String) : Option String :=
  match time_str with
  | none => none
  | some s => if s = "" then none else some (convertStr s)

/-- `s.replace('Z', '+00:00')`: every `Z` becomes `+00:00`. -/
def replaceZList : List Char → List Char
  | [] => []
  | c :: cs =>
    if c = 'Z' then '+' :: '0' :: '0' :: ':' :: '0' :: '0' :: replaceZList cs
    else c :: replaceZList cs

/-- `s.replace('+00:00', 'Z')`: every non-overlapping `+00:00`, left to
right, becomes `Z`. -/
def replacePlusZeroList : List Char → List Char
  | '+' :: '0' :: '0' :: ':' :: '0' :: '0' :: cs => 'Z' :: replacePlusZeroList cs
  | c :: cs => c :: replacePlusZeroList cs
  | [] => []

def replaceZ (s : String) : String := String.mk (replaceZList s.data)

def replacePlusZero (s : String) : String := String.mk (replacePlusZeroList s.data)

/-- End-time synthesis (src/app.py lines 212-218): parse
`start.replace('Z', '+00:00')`, add two hours, format, turn `+00:00` back
into `Z`; on any failure (parse error or overflow) fall back to `start`. -/
def synthEnd (start : String) : String :=
  match fromisoformatOffset (replaceZ start) with
  | some (dt, off) =>
    let e := addHours dt 2
    if e.year > 9999 then start
    else replacePlusZero (isoWithOffset e off)
  | none => start

/-! ## Source events and configuration -/

/-- One entry of the `identifiers` list of an Action Network event: either a
string or some other JSON value (the sync loop skips non-strings). -/
inductive IdentVal where
  | str (s : String)
  | other
deriving DecidableEq, Repr

/-- The `location` field: absent (or Python-falsy), a plain string, or a
structured object with the five fields read by `transform_to_google_event`
(an empty dict is modelled as `absent`, matching its falsiness). -/
inductive LocValue where
  | absent
  | str (s : String)
  | obj (venue : String) (address_lines : List String)
      (locality region postal_code : String)
deriving DecidableEq, Repr

/-- A fetched Action Network event, with exactly the fields the source reads.
`none` models an absent key (`dict.get` defaults apply at each use site); an
empty string is a present-but-falsy value. -/
structure ANEvent where
  identifiers : List IdentVal := []
  id : Option String := none
  browser_url : Option String := none
  title : Option String := none
  description : Option String := none
  status : Option String := none
  modified_date : Option String := none
  start_date : Option String := none
  start_time : Option String := none
  end_date : Option String := none
  end_time : Option String := none
  location : LocValue := LocValue.absent
deriving DecidableEq, Repr

/-- The seven `GOOGLE_*_CALENDAR_ID` environment variables. -/
structure Config where
  dsa : Option String := none
  direct_action : Option String := none
  education : Option String := none
  outreach : Option String := none
  socials : Option String := none
  steering : Option String := none
  volunteering : Option String := none
deriving DecidableEq, Repr

/-- The `hashtag_mapping` dict of `get_google_calendar_id`, in declaration
order (Python dicts preserve insertion order). -/
def hashtagMapping (cfg : Config) : List (String × Option String) :=
  [("#dsa", cfg.dsa), ("#action", cfg.direct_action),
   ("#education", cfg.education), ("#outreach", cfg.outreach),
   ("#social", cfg.socials), ("#steering", cfg.steering),
   ("#volunteer", cfg.volunteering)]

/-- Python's substring containment `needle in hay`. -/
def containsSub (needle hay : String) : Bool :=
  hay.data.tails.any (fun t => needle.data.isPrefixOf t)

/-- `get_google_calendar_id` (src/app.py lines 84-107): first hashtag found
in the lower-cased description whose calendar id is configured (truthy);
otherwise the DSA default, or `none` when even that is unconfigured. -/
def get_google_calendar_id (cfg : Config) (e : ANEvent) : String × Option String :=
  let description := pyLower (e.description.getD "")
  match (hashtagMapping cfg).find?
      (fun p => containsSub p.1 description && pyTruthy p.2) with
  | some p => p
  | none => ("none (defaulted to DSA)", if pyTruthy cfg.dsa then cfg.dsa else none)

/-! ## Field transformation -/

/-- The Google Calendar event body built by `transform_to_google_event`
(the constant `timeZone: UTC` members are omitted). -/
structure GoogleEvent where
  summary : String
  description : String
  location : String
  startDateTime : Option String
  endDateTime : Option String
deriving DecidableEq, Repr

/-- Location formatting of `transform_to_google_event` (src/app.py lines
221-245): structured parts joined by `", "`; note that `address_lines`
entries are extended without filtering empties. -/
def locationString (loc : LocValue) : String :=
  match loc with
  | LocValue.absent => ""
  | LocValue.str s => s
  | LocValue.obj venue address_lines locality region postal_code =>
    let parts : List String :=
      (if venue ≠ "" then [venue] else []) ++ address_lines ++
        (if locality ≠ "" then [locality] else []) ++
        (if region ≠ "" then [region] else []) ++
        (if postal_code ≠ "" then [postal_code] else [])
    String.intercalate ", " parts

/-- The pure body of `transform_to_google_event` (src/app.py lines 135-262):
description/registration merge, start/end selection (`in`-presence checks),
timezone conversion and end synthesis, location formatting. -/
def transformCore (e : ANEvent) : GoogleEvent :=
  let title := e.title.getD "Untitled Event"
  let description := e.description.getD ""
  let registration_url := e.browser_url.getD ""
  let google_description :=
    if registration_url ≠ "" then
      if description ≠ "" then description ++ "\n\nRegister: " ++ registration_url
      else "Register: " ++ registration_url
    else description
  let start0 : Option String :=
    match e.start_date with
    | some v => some v
    | none => e.start_time
  let end0 : Option String :=
    match e.end_date with
    | some v => some v
    | none => e.end_time
  let start_date := convert_to_utc start0
  let end_date := convert_to_utc end0
  let end_date :=
    if pyTruthy start_date && !(pyTruthy end_date) then
      some (synthEnd (start_date.getD ""))
    else end_date
  { summary := title
    description := google_description
    location := locationString e.location
    startDateTime := start_date
    endDateTime := end_date }

/-! ## Discord description (shared text of `create_discord_event_direct`
lines 377-396 and `update_discord_event_direct` lines 446-465; the two
functions contain this block verbatim). -/

/-- Python `\s` on the ASCII range (the regexes run on unicode strings; the
claims only involve ASCII text). -/
def isPySpace (c : Char) : Bool :=
  c = ' ' || c = '\t' || c = '\n' || c = '\r' || c = '\x0b' || c = '\x0c'

/-- One-pass state machine for `re.sub(r'<[^>]+>', '', s)`.  The first
argument is `none` outside a candidate tag and `some acc` after an unclosed
`<` (with `acc` the reversed characters read since then).  A closed `<...>`
run with a nonempty body is dropped; `<>` and a trailing unclosed `<...` are
emitted verbatim, exactly as the regex (which needs at least one non-`>`
before the `>`) leaves them. -/
def stripTagsAux : Option (List Char) → List Char → List Char
  | none, [] => []
  | some acc, [] => '<' :: acc.reverse
  | none, c :: cs =>
    if c = '<' then stripTagsAux (some []) cs else c :: stripTagsAux none cs
  | some acc, c :: cs =>
    if c = '>' then
      if acc.isEmpty then '<' :: '>' :: stripTagsAux none cs
      else stripTagsAux none cs
    else stripTagsAux (some (c :: acc)) cs

def stripTagsList (l : List Char) : List Char := stripTagsAux none l

/-- One-pass state machine for `re.sub(r'\s+', ' ', s)`: each maximal
whitespace run becomes one space (the flag records that the current run has
already emitted its space). -/
def collapseWsAux : Bool → List Char → List Char
  | _, [] => []
  | inRun, c :: cs =>
    if isPySpace c then
      if inRun then collapseWsAux true cs else ' ' :: collapseWsAux true cs
    else c :: collapseWsAux false cs

def collapseWsList (l : List Char) : List Char := collapseWsAux false l

/-- Python `str.strip()` (on the same whitespace class). -/
def pyStripList (l : List Char) : List Char :=
  ((l.dropWhile isPySpace).reverse.dropWhile isPySpace).reverse

def stripHtmlTags (s : String) : String := String.mk (stripTagsList s.data)

def collapseWs (s : String) : String := String.mk (collapseWsList s.data)

def pyStrip (s : String) : String := String.mk (pyStripList s.data)

/-- The description value just before Discord's length check: HTML stripped
and whitespace collapsed (only when the raw description is nonempty), then
the `Register:` line merged in. -/
def discordBase (e : ANEvent) : String :=
  let description := e.description.getD ""
  let registration_url := e.browser_url.getD ""
  let d1 :=
    if description ≠ "" then pyStrip (collapseWs (stripHtmlTags description))
    else description
  if registration_url ≠ "" then
    if d1 ≠ "" then d1 ++ "\n\nRegister: " ++ registration_url
    else "Register: " ++ registration_url
  else d1

/-- The delivered Discord description: `discordBase`, hard-truncated to
`[:997] + "..."` when longer than 1000 characters. -/
def discordDescription (e : ANEvent) : String :=
  let d := discordBase e
  if d.length > 1000 then String.mk (d.data.take 997) ++ "..." else d

/-- The Discord scheduled-event payload (`name`, `description`,
`scheduled_start_time`, `scheduled_end_time`, `entity_metadata.location`;
the constant `privacy_level`/`entity_type` members are omitted). -/
structure DiscordPayload where
  name : String
  description : String
  scheduled_start_time : Option String
  scheduled_end_time : Option String
  location : String
deriving DecidableEq, Repr

def discordPayload (e : ANEvent) (g : GoogleEvent) : DiscordPayload :=
  { name := g.summary
    description := discordDescription e
    scheduled_start_time := g.startDateTime
    scheduled_end_time := g.endDateTime
    location := g.location }

/-! ## External world: configuration flags and call outcomes

Each oracle abstracts one REST call; `none`/`false` covers every failure the
source catches (non-success status code or a raised exception), `some id`
a success together with the id the platform returned.  `transformExc` models
an exception inside `transform_to_google_event`, whose `except` branch
returns `None`. -/

structure World where
  googleConfigured : Bool
  discordConfigured : Bool
  transformExc : ANEvent → Bool
  googleCreateRes : String → GoogleEvent → Option String
  googleUpdateOk : String → String → GoogleEvent → Bool
  googleDeleteOk : String → String → Bool
  discordCreateRes : DiscordPayload → Option String
  discordUpdateOk : String → DiscordPayload → Bool
  discordDeleteOk : String → Bool

/-- `transform_to_google_event` with its outer `try/except` (returns `None`
exactly when an exception occurs while transforming). -/
def transform_to_google_event (w : World) (e : ANEvent) : Option GoogleEvent :=
  if w.transformExc e then none else some (transformCore e)

/-- One observable platform call issued during a sync pass. -/
inductive PlatformCall where
  | googleCreate (calendarId : String) (body : GoogleEvent)
  | googleUpdate (calendarId eventId : String) (body : GoogleEvent)
  | googleDelete (calendarId eventId : String)
  | discordCreate (payload : DiscordPayload)
  | discordUpdate (eventId : String) (payload : DiscordPayload)
  | discordDelete (eventId : String)
deriving DecidableEq, Repr

def isDiscordCreate : PlatformCall → Bool
  | PlatformCall.discordCreate _ => true
  | _ => false

def isDeleteCall : PlatformCall → Bool
  | PlatformCall.googleDelete _ _ => true
  | PlatformCall.discordDelete _ => true
  | _ => false

/-- `create_google_event` (src/app.py lines 268-314): skip when the service
is unconfigured or no calendar id resolves or the transform failed; otherwise
issue the insert and return `(event id, calendar id)`, `(None, None)` on
failure.  The second component of the result pairs the emitted calls. -/
def create_google_event (w : World) (cfg : Config) (e : ANEvent) :
    (Option String × Option String) × List PlatformCall :=
  if !w.googleConfigured then ((none, none), [])
  else
    let cal := (get_google_calendar_id cfg e).2
    if !pyTruthy cal then ((none, none), [])
    else
      match transform_to_google_event w e with
      | none => ((none, none), [])
      | some g =>
        let c := cal.getD ""
        match w.googleCreateRes c g with
        | some gid => ((some gid, cal), [PlatformCall.googleCreate c g])
        | none => ((none, none), [PlatformCall.googleCreate c g])

/-- `update_google_event` (src/app.py lines 316-341); returns the event id on
success, `None` on failure, re-transforming internally. -/
def update_google_event (w : World) (gid cal : String) (e : ANEvent) :
    Option String × List PlatformCall :=
  if !w.googleConfigured then (none, [])
  else
    match transform_to_google_event w e with
    | none => (none, [])
    | some g =>
      if w.googleUpdateOk cal gid g then (some gid, [PlatformCall.googleUpdate cal gid g])
      else (none, [PlatformCall.googleUpdate cal gid g])

/-- `delete_google_event` (src/app.py lines 343-361). -/
def delete_google_event (w : World) (gid cal : String) : Bool × List PlatformCall :=
  if !w.googleConfigured then (false, [])
  else (w.googleDeleteOk cal gid, [PlatformCall.googleDelete cal gid])

/-- `create_discord_event_direct` (src/app.py lines 363-431).  When the
engine hands it `None` for `google_event_data` (a failed transform), the
subscript raises before any HTTP call and the `except` returns `None`. -/
def create_discord_event_direct (w : World) (e : ANEvent)
    (gdata : Option GoogleEvent) : Option String × List PlatformCall :=
  if !w.discordConfigured then (none, [])
  else
    match gdata with
    | none => (none, [])
    | some g =>
      let p := discordPayload e g
      match w.discordCreateRes p with
      | some did => (some did, [PlatformCall.discordCreate p])
      | none => (none, [PlatformCall.discordCreate p])

/-- `update_discord_event_direct` (src/app.py lines 433-496); returns the
(unchanged) Discord event id on success. -/
def update_discord_event_direct (w : World) (did : String) (e : ANEvent)
    (gdata : Option GoogleEvent) : Option String × List PlatformCall :=
  if !w.discordConfigured then (none, [])
  else
    match gdata with
    | none => (none, [])
    | some g =>
      let p := discordPayload e g
      if w.discordUpdateOk did p then (some did, [PlatformCall.discordUpdate did p])
      else (none, [PlatformCall.discordUpdate did p])

/-- `delete_discord_event_direct` (src/app.py lines 498-523). -/
def delete_discord_event_direct (w : World) (did : String) :
    Bool × List PlatformCall :=
  if !w.discordConfigured then (false, [])
  else (w.discordDeleteOk did, [PlatformCall.discordDelete did])

/-! ## Mapping store and identifier extraction -/

/-- One value of the `event_mappings` dict (src/app.py lines 44-46 and
613-621). -/
structure MappingRow where
  discord_id : Option String
  google_id : Option String
  google_calendar_id : Option String
  last_modified : String
  status : String
  title : String
  action_network_url : String
deriving DecidableEq, Repr

/-- The `event_mappings` dict, as a key-to-row function. -/
def Mappings : Type := String → Option MappingRow

def mset (m : Mappings) (k : String) (v : MappingRow) : Mappings :=
  fun q => if q = k then some v else m q

def mdel (m : Mappings) (k : String) : Mappings :=
  fun q => if q = k then none else m q

def memptyMap : Mappings := fun _ => none

/-- The first string entry of the `identifiers` list (non-strings are
skipped), at which the identifier loop of `sync_events` (src/app.py lines
545-553) breaks. -/
def firstStrIdent : List IdentVal → Option String
  | [] => none
  | IdentVal.str s :: _ => some s
  | IdentVal.other :: rest => firstStrIdent rest

/-- The value the identifier loop itself derives (src/app.py lines 545-553),
before the fallbacks: the first string identifier, transformed by the colon
rule at which the loop breaks, or `""` when no string identifier exists.
`""` is exactly the Python falsy result at which line 556 falls through to
the `id` field. -/
def identStep1 (e : ANEvent) : String :=
  match firstStrIdent e.identifiers with
  | some s => if s.data.contains ':' then afterLast ':' s else s
  | none => ""

/-- The full id extraction of `sync_events` (src/app.py lines 541-567): the
first string identifier decides (suffix after the last colon when it contains
a colon, verbatim otherwise), then the generic `id` field, then the last path
segment of `browser_url`; empty results fall through, and an overall empty
result means the event is skipped. -/
def extract_event_id (e : ANEvent) : String :=
  let id1 := identStep1 e
  let id2 := if id1 ≠ "" then id1 else e.id.getD ""
  if id2 ≠ "" then id2
  else
    let url := e.browser_url.getD ""
    if url ≠ "" then afterLast '/' url else ""

/-! ## The reconciliation engine (`sync_events`, src/app.py lines 525-701) -/

/-- Which branch of the per-event state machine an event took. -/
inductive Outcome where
  | skippedNoId
  | cancelledRemoved
  | cancelledSkipped
  | created
  | createFailed
  | updated
  | updateAllFailed
  | updateTransformFailed
  | noChange
deriving DecidableEq, Repr

/-- The create path or the update path (as opposed to the skip and
cancellation branches). -/
def isCreateOrUpdate : Outcome → Bool
  | Outcome.created => true
  | Outcome.createFailed => true
  | Outcome.updated => true
  | Outcome.updateAllFailed => true
  | Outcome.updateTransformFailed => true
  | Outcome.noChange => true
  | _ => false

structure StepResult where
  mappings : Mappings
  calls : List PlatformCall
  outcome : Outcome
  newDelta : Nat
  updDelta : Nat
  delDelta : Nat

/-- The body of the per-event `for` loop of `sync_events` (src/app.py lines
540-690): skip id-less events; delete-and-drop cancelled mapped events (the
Discord delete counts regardless of its outcome, exactly as in the source);
create new events (mapping recorded only under `if google_event_id:`); update
modified events (metadata re-recorded only when at least one platform update
succeeded). -/
def processEvent (w : World) (cfg : Config) (m : Mappings) (e : ANEvent) :
    StepResult :=
  let event_id := extract_event_id e
  if event_id = "" then ⟨m, [], Outcome.skippedNoId, 0, 0, 0⟩
  else
    let title := e.title.getD "No title"
    let status := e.status.getD "confirmed"
    let modified_date := e.modified_date.getD ""
    if status = "cancelled" then
      match m event_id with
      | some stored =>
        let dPart :=
          if pyTruthy stored.discord_id then
            ((delete_discord_event_direct w (stored.discord_id.getD "")).2, 1)
          else ([], 0)
        let gPart :=
          if pyTruthy stored.google_id && pyTruthy stored.google_calendar_id then
            let r := delete_google_event w (stored.google_id.getD "")
              (stored.google_calendar_id.getD "")
            (r.2, if r.1 then 1 else 0)
          else ([], 0)
        ⟨mdel m event_id, dPart.1 ++ gPart.1, Outcome.cancelledRemoved,
          0, 0, dPart.2 + gPart.2⟩
      | none => ⟨m, [], Outcome.cancelledSkipped, 0, 0, 0⟩
    else
      match m event_id with
      | none =>
        let gRes := create_google_event w cfg e
        if pyTruthy gRes.1.1 then
          let gdata := transform_to_google_event w e
          let dRes := create_discord_event_direct w e gdata
          let row : MappingRow :=
            { discord_id := dRes.1
              google_id := gRes.1.1
              google_calendar_id := gRes.1.2
              last_modified := modified_date
              status := status
              title := title
              action_network_url := e.browser_url.getD "" }
          ⟨mset m event_id row, gRes.2 ++ dRes.2, Outcome.created, 1, 0, 0⟩
        else ⟨m, gRes.2, Outcome.createFailed, 0, 0, 0⟩
      | some stored =>
        let needs_update :=
          (modified_date != stored.last_modified) || (status != stored.status)
        if needs_update then
          match transform_to_google_event w e with
          | none => ⟨m, [], Outcome.updateTransformFailed, 0, 0, 0⟩
          | some g =>
            let gPart :=
              if pyTruthy stored.google_id && pyTruthy stored.google_calendar_id then
                update_google_event w (stored.google_id.getD "")
                  (stored.google_calendar_id.getD "") e
              else (none, [])
            let dPart :=
              if pyTruthy stored.discord_id then
                update_discord_event_direct w (stored.discord_id.getD "") e (some g)
              else (none, [])
            if pyTruthy gPart.1 || pyTruthy dPart.1 then
              let row := { stored with
                last_modified := modified_date, status := status, title := title }
              ⟨mset m event_id row, gPart.2 ++ dPart.2, Outcome.updated, 0, 1, 0⟩
            else ⟨m, gPart.2 ++ dPart.2, Outcome.updateAllFailed, 0, 0, 0⟩
        else ⟨m, [], Outcome.noChange, 0, 0, 0⟩

structure SyncResult where
  mappings : Mappings
  calls : List PlatformCall
  outcomes : List Outcome
  newCount : Nat
  updCount : Nat
  delCount : Nat

/-- `sync_events` over an already-fetched batch: the sequential `for` loop,
each event processed by `processEvent` against the evolving mapping table.
The per-event branch outcomes are recorded in input order. -/
def sync_events (w : World) (cfg : Config) (m : Mappings) :
    List ANEvent → SyncResult
  | [] => ⟨m, [], [], 0, 0, 0⟩
  | e :: rest =>
    let r := processEvent w cfg m e
    let s := sync_events w cfg r.mappings rest
    ⟨s.mappings, r.calls ++ s.calls, r.outcome :: s.outcomes,
      r.newDelta + s.newCount, r.updDelta + s.updCount, r.delDelta + s.delCount⟩

/-- Rows whose Google fields are recorded (truthy); every row the engine ever
writes satisfies this. -/
def WFrow (r : MappingRow) : Prop :=
  pyTruthy r.google_id = true ∧ pyTruthy r.google_calendar_id = true

def WFmap (m : Mappings) : Prop :=
  ∀ k r, m k = some r → WFrow r

/-! ## Concrete fixtures used by witnesses and counterexamples -/

/-- A world in which every platform is configured and every call succeeds. -/
def wOk : World :=
  { googleConfigured := true
    discordConfigured := true
    transformExc := fun _ => false
    googleCreateRes := fun _ _ => some "G1"
    googleUpdateOk := fun _ _ _ => true
    googleDeleteOk := fun _ _ => true
    discordCreateRes := fun _ => some "D1"
    discordUpdateOk := fun _ _ => true
    discordDeleteOk := fun _ => true }

/-- Like `wOk` but every Google Calendar insert fails. -/
def wGfail : World := { wOk with googleCreateRes := fun _ _ => none }

/-- A world in which every oracle reports failure. -/
def wAllFail : World :=
  { googleConfigured := true
    discordConfigured := true
    transformExc := fun _ => true
    googleCreateRes := fun _ _ => none
    googleUpdateOk := fun _ _ _ => false
    googleDeleteOk := fun _ _ => false
    discordCreateRes := fun _ => none
    discordUpdateOk := fun _ _ => false
    discordDeleteOk := fun _ => false }

def cfgAll : Config := { dsa := some "CAL_DSA", direct_action := some "CAL_ACTION" }

def ev1 : ANEvent :=
  { identifiers := [IdentVal.str "action_network:abc-123"]
    title := some "Meet"
    description := some "<p>Hello  world</p>"
    browser_url := some "https://example.org/ev/slug1"
    modified_date := some "2025-06-22T10:00:00Z"
    start_date := some "2025-07-01T19:00:00Z" }

def row1 : MappingRow :=
  { discord_id := some "D1"
    google_id := some "G1"
    google_calendar_id := some "CAL_DSA"
    last_modified := "2025-06-22T10:00:00Z"
    status := "confirmed"
    title := "Meet"
    action_network_url := "https://example.org/ev/slug1" }

/-- A mapping table holding exactly `ev1`'s row under its extracted id. -/
def m1 : Mappings := fun k => if k = "abc-123" then some row1 else none

def ev3 : ANEvent :=
  { identifiers := [IdentVal.str "an:ev3"]
    status := some "tentative"
    modified_date := some "2025-06-22T10:00:00Z" }

def row3 : MappingRow :=
  { discord_id := none
    google_id := some "G1"
    google_calendar_id := some "CAL_DSA"
    last_modified := "2025-06-22T10:00:00Z"
    status := "confirmed"
    title := "Meet"
    action_network_url := "" }

def m3 : Mappings := fun k => if k = "ev3" then some row3 else none

def ev5 : ANEvent :=
  { identifiers := [IdentVal.str "plain", IdentVal.str "action_network:abc"] }

/-- An event whose only identifier derives the empty string (`"x:"` has an
empty after-last-colon suffix), forcing the fall-through to the `id` field. -/
def ev5b : ANEvent :=
  { identifiers := [IdentVal.str "x:"], id := some "fallback-id" }

def cfg6 : Config := { dsa := none, direct_action := some "CAL_ACTION" }

def ev6 : ANEvent := { description := some "#dsa #action" }

def ev8 : ANEvent := { description := some "Hi..." }

/-- An event whose description is 1100 `a` characters, exceeding Discord's
1000-character limit. -/
def evLong : ANEvent := { description := some (String.mk (List.replicate 1100 'a')) }

def ev10 : ANEvent := { }

def evCancelled : ANEvent :=
  { identifiers := [IdentVal.str "action_network:abc-123"]
    status := some "cancelled"
    modified_date := some "2025-06-23T10:00:00Z" }

/-! ## General facts about the adapters (shared helper lemmas) -/

theorem create_google_calls_shape (w : World) (cfg : Config) (e : ANEvent) :
    ∀ c ∈ (create_google_event w cfg e).2, ∃ cal g, c = PlatformCall.googleCreate cal g := by
  intro c hc
  simp only [create_google_event] at hc
  repeat' split at hc
  all_goals simp at hc
  all_goals exact ⟨_, _, hc⟩

theorem create_discord_calls_shape (w : World) (e : ANEvent) (g : Option GoogleEvent) :
    ∀ c ∈ (create_discord_event_direct w e g).2, ∃ p, c = PlatformCall.discordCreate p := by
  intro c hc
  simp only [create_discord_event_direct] at hc
  repeat' split at hc
  all_goals simp at hc
  all_goals exact ⟨_, hc⟩

theorem update_google_calls_shape (w : World) (gid cal : String) (e : ANEvent) :
    ∀ c ∈ (update_google_event w gid cal e).2,
      ∃ c2 g2 b, c = PlatformCall.googleUpdate c2 g2 b := by
  intro c hc
  simp only [update_google_event] at hc
  repeat' split at hc
  all_goals simp at hc
  all_goals exact ⟨_, _, _, hc⟩

theorem update_discord_calls_shape (w : World) (did : String) (e : ANEvent)
    (g : Option GoogleEvent) :
    ∀ c ∈ (update_discord_event_direct w did e g).2,
      ∃ d2 p, c = PlatformCall.discordUpdate d2 p := by
  intro c hc
  simp only [update_discord_event_direct] at hc
  repeat' split at hc
  all_goals simp at hc
  all_goals exact ⟨_, _, hc⟩

/-- A successful Google create also hands back a truthy calendar id. -/
theorem create_google_truthy_cal (w : World) (cfg : Config) (e : ANEvent) :
    pyTruthy (create_google_event w cfg e).1.1 = true →
    pyTruthy (create_google_event w cfg e).1.2 = true := by
  simp only [create_google_event]
  repeat' split
  all_goals intro h
  all_goals simp_all [pyTruthy]

/-! ## Claim C7 -/

/-- Claim C7 (confirmed).  For every sync pass, an exception raised while
transforming one event or calling a platform for it is caught at the
per-event or per-call boundary (in the embedding: every adapter and the
transform return an `Option`/`Bool` outcome for every oracle, including the
all-failing one) and processing of the remaining events of the same pass
continues: `sync_events` records one branch outcome per input event under
every world, and the pass over `e :: rest` always continues into `rest`
with the updated table, whatever happened to `e`. -/
theorem c7_no_abort :
    ∀ (w : World) (cfg : Config) (m : Mappings) (es : List ANEvent),
      (sync_events w cfg m es).outcomes.length = es.length ∧
      ∀ (e : ANEvent) (rest : List ANEvent),
        (sync_events w cfg m (e :: rest)).outcomes =
          (processEvent w cfg m e).outcome ::
            (sync_events w cfg (processEvent w cfg m e).mappings rest).outcomes := by
  intro w cfg m es
  constructor
  · induction es generalizing m with
    | nil => rfl
    | cons e rest ih =>
      simp only [sync_events, List.length_cons]
      rw [ih]
  · intro e rest
    rfl

/-! ## Claim C3 -/

/-- Claim C3 (corrected) — counterexample to the claim as stated.  The event
`ev3` carries the same `modified_date` that its mapping row recorded, yet the
engine issues a platform call for it, because its `status` (`tentative`)
differs from the recorded one (`confirmed`): `last_modified` being unchanged
is not sufficient for a no-op. -/
theorem c3_counterexample :
    ev3.modified_date.getD "" = row3.last_modified ∧
    m3 (extract_event_id ev3) = some row3 ∧
    (processEvent wOk cfgAll m3 ev3).calls =
      [PlatformCall.googleUpdate "CAL_DSA" "G1" (transformCore ev3)] := by
  exact ⟨rfl, rfl, rfl⟩

/-- Claim C3 (corrected, amended).  For every source event whose id already
has a mapping row and whose `last_modified` AND `status` values are both
unchanged from the values recorded in that row (the recorded status not being
'cancelled'), a second sync pass performs zero platform calls for that event
and leaves its mapping row — indeed the whole table — unchanged. -/
theorem c3_unchanged_noop :
    ∀ (w : World) (cfg : Config) (m : Mappings) (e : ANEvent) (row : MappingRow),
      extract_event_id e ≠ "" →
      m (extract_event_id e) = some row →
      e.modified_date.getD "" = row.last_modified →
      e.status.getD "confirmed" = row.status →
      row.status ≠ "cancelled" →
      processEvent w cfg m e = ⟨m, [], Outcome.noChange, 0, 0, 0⟩ := by
  intro w cfg m e row hid hrow hmod hstat hcanc
  have hst : e.status.getD "confirmed" ≠ "cancelled" := by
    rw [hstat]; exact hcanc
  simp only [processEvent, if_neg hid, if_neg hst, hrow]
  have h1 : (e.modified_date.getD "" != row.last_modified) = false := by
    simp [hmod]
  have h2 : (e.status.getD "confirmed" != row.status) = false := by
    simp [hstat]
  simp [h1, h2]

/-- Witness for the amended C3 theorem at a concrete no-change second pass. -/
theorem c3_witness :
    extract_event_id ev1 ≠ "" ∧
    m1 (extract_event_id ev1) = some row1 ∧
    ev1.modified_date.getD "" = row1.last_modified ∧
    ev1.status.getD "confirmed" = row1.status ∧
    row1.status ≠ "cancelled" ∧
    processEvent wOk cfgAll m1 ev1 = ⟨m1, [], Outcome.noChange, 0, 0, 0⟩ :=
  ⟨by decide, rfl, rfl, rfl, by decide,
    c3_unchanged_noop wOk cfgAll m1 ev1 row1 (by decide) rfl rfl rfl (by decide)⟩

/-! ## Claim C10 -/

/-- Claim C10 (corrected) — counterexample to the claim as stated.  The empty
event has no `status` field, but it also yields no mapping key, so it is
skipped with zero platform calls: it takes neither the create nor the update
path, contradicting "such an event always takes the create or update
path". -/
theorem c10_counterexample :
    ev10.status = none ∧
    (processEvent wOk cfgAll memptyMap ev10).outcome = Outcome.skippedNoId ∧
    isCreateOrUpdate (processEvent wOk cfgAll memptyMap ev10).outcome = false ∧
    (processEvent wOk cfgAll memptyMap ev10).calls = [] :=
  ⟨rfl, rfl, rfl, rfl⟩

/-- Every call issued by a non-cancelled event's branch is a create or an
update, never a delete. -/
theorem processEvent_no_delete (w : World) (cfg : Config) (m : Mappings) (e : ANEvent)
    (hnc : e.status.getD "confirmed" ≠ "cancelled") :
    ∀ c ∈ (processEvent w cfg m e).calls, isDeleteCall c = false := by
  intro c hc
  by_cases hid : extract_event_id e = ""
  · simp [processEvent, hid] at hc
  · simp only [processEvent, if_neg hid, if_neg hnc] at hc
    repeat' split at hc
    all_goals simp only [List.mem_append] at hc
    all_goals
      first
        | (rcases hc with hc | hc <;>
            first
              | (obtain ⟨_, _, rfl⟩ := create_google_calls_shape _ _ _ _ hc; rfl)
              | (obtain ⟨_, rfl⟩ := create_discord_calls_shape _ _ _ _ hc; rfl)
              | (obtain ⟨_, _, _, rfl⟩ := update_google_calls_shape _ _ _ _ _ hc; rfl)
              | (obtain ⟨_, _, rfl⟩ := update_discord_calls_shape _ _ _ _ _ hc; rfl)
              | simp at hc)
        | (obtain ⟨_, _, rfl⟩ := create_google_calls_shape _ _ _ _ hc; rfl)

/-- A non-cancelled event never removes a mapping row. -/
theorem processEvent_keeps_rows (w : World) (cfg : Config) (m : Mappings) (e : ANEvent)
    (hnc : e.status.getD "confirmed" ≠ "cancelled") :
    ∀ k, (m k).isSome → ((processEvent w cfg m e).mappings k).isSome := by
  intro k hk
  by_cases hid : extract_event_id e = ""
  · simpa [processEvent, hid] using hk
  · simp only [processEvent, if_neg hid, if_neg hnc]
    repeat' split
    all_goals simp only [mset]
    all_goals first
      | (split <;> simp_all)
      | exact hk

/-- A non-cancelled event with a derivable id takes the create or the update
path. -/
theorem processEvent_create_or_update (w : World) (cfg : Config) (m : Mappings)
    (e : ANEvent) (hid : extract_event_id e ≠ "")
    (hnc : e.status.getD "confirmed" ≠ "cancelled") :
    isCreateOrUpdate (processEvent w cfg m e).outcome = true := by
  simp only [processEvent, if_neg hid, if_neg hnc]
  repeat' split
  all_goals simp [isCreateOrUpdate]

/-- Claim C10 (corrected, amended).  For every fetched source event that has
no `status` field, the engine treats its status as 'confirmed': if a mapping
key can be derived it takes the create or update path, and in every case it
never triggers the cancellation branch — no delete call is issued for it and
no mapping row is removed. -/
theorem c10_missing_status :
    ∀ (w : World) (cfg : Config) (m : Mappings) (e : ANEvent),
      e.status = none →
      (extract_event_id e ≠ "" →
        isCreateOrUpdate (processEvent w cfg m e).outcome = true) ∧
      (∀ c ∈ (processEvent w cfg m e).calls, isDeleteCall c = false) ∧
      (∀ k, (m k).isSome → ((processEvent w cfg m e).mappings k).isSome) := by
  intro w cfg m e hstat
  have hnc : e.status.getD "confirmed" ≠ "cancelled" := by
    rw [hstat]; decide
  exact ⟨fun hid => processEvent_create_or_update w cfg m e hid hnc,
    processEvent_no_delete w cfg m e hnc,
    processEvent_keeps_rows w cfg m e hnc⟩

/-- Witness for the amended C10 theorem: a status-less event with a valid
identifier takes the create path. -/
theorem c10_witness :
    ({ ev1 with status := none } : ANEvent).status = none ∧
    extract_event_id { ev1 with status := none } ≠ "" ∧
    isCreateOrUpdate
      (processEvent wOk cfgAll memptyMap { ev1 with status := none }).outcome = true :=
  ⟨rfl, by decide,
    (c10_missing_status wOk cfgAll memptyMap { ev1 with status := none } rfl).1
      (by decide)⟩

/-! ## Claim C1 -/

/-- Claim C1 (corrected) — counterexample to the claim as stated.  A new,
non-cancelled event in a world where Discord IS configured but the Google
Calendar insert fails: the engine issues only the (failing) Google create —
it never calls create on the configured Discord platform — and records no
mapping row, contradicting "calls create on every configured platform". -/
theorem c1_counterexample :
    wGfail.discordConfigured = true ∧
    memptyMap (extract_event_id ev1) = none ∧
    ev1.status.getD "confirmed" ≠ "cancelled" ∧
    (processEvent wGfail cfgAll memptyMap ev1).calls =
      [PlatformCall.googleCreate "CAL_DSA" (transformCore ev1)] ∧
    (∀ c ∈ (processEvent wGfail cfgAll memptyMap ev1).calls,
      isDiscordCreate c = false) ∧
    (processEvent wGfail cfgAll memptyMap ev1).mappings (extract_event_id ev1) = none := by
  refine ⟨rfl, rfl, by decide, rfl, ?_, rfl⟩
  have h : ∀ c ∈ [PlatformCall.googleCreate "CAL_DSA" (transformCore ev1)],
      isDiscordCreate c = false := by
    intro c hc
    simp only [List.mem_singleton] at hc
    rw [hc]
    rfl
  exact h

/-- Claim C1 (corrected, amended).  For every new non-cancelled source event,
the engine calls Google Calendar create first; if that create fails (or
Google is unconfigured), no Discord create is attempted, no mapping row is
recorded, and the event is retried as new on the next pass; if the Google
create succeeds, a mapping row is recorded whose destination ids are exactly
the returned Google event id, its calendar id, and the result (possibly
`None`) of the then-attempted Discord create — so ids are recorded only for
platforms that succeeded, but the recording of the row is decided by the
Google create alone. -/
theorem c1_create_google_first :
    ∀ (w : World) (cfg : Config) (m : Mappings) (e : ANEvent),
      extract_event_id e ≠ "" →
      e.status.getD "confirmed" ≠ "cancelled" →
      m (extract_event_id e) = none →
      ((pyTruthy (create_google_event w cfg e).1.1 = false →
          (processEvent w cfg m e).mappings = m ∧
          (processEvent w cfg m e).calls = (create_google_event w cfg e).2 ∧
          ∀ c ∈ (processEvent w cfg m e).calls, isDiscordCreate c = false) ∧
       (pyTruthy (create_google_event w cfg e).1.1 = true →
          (processEvent w cfg m e).mappings (extract_event_id e) =
            some { discord_id :=
                     (create_discord_event_direct w e (transform_to_google_event w e)).1
                   google_id := (create_google_event w cfg e).1.1
                   google_calendar_id := (create_google_event w cfg e).1.2
                   last_modified := e.modified_date.getD ""
                   status := e.status.getD "confirmed"
                   title := e.title.getD "No title"
                   action_network_url := e.browser_url.getD "" })) := by
  intro w cfg m e hid hnc hnone
  constructor
  · intro hg
    have hmap : (processEvent w cfg m e).mappings = m := by
      simp [processEvent, if_neg hid, if_neg hnc, hnone, hg]
    have hcalls : (processEvent w cfg m e).calls = (create_google_event w cfg e).2 := by
      simp [processEvent, if_neg hid, if_neg hnc, hnone, hg]
    refine ⟨hmap, hcalls, ?_⟩
    intro c hc
    rw [hcalls] at hc
    obtain ⟨_, _, rfl⟩ := create_google_calls_shape _ _ _ _ hc
    rfl
  · intro hg
    simp only [processEvent, if_neg hid, if_neg hnc, hnone, hg, if_true]
    simp [mset]

/-- Witness for the amended C1 theorem at a successful create pass. -/
theorem c1_witness :
    extract_event_id ev1 ≠ "" ∧
    ev1.status.getD "confirmed" ≠ "cancelled" ∧
    memptyMap (extract_event_id ev1) = none ∧
    pyTruthy (create_google_event wOk cfgAll ev1).1.1 = true ∧
    (processEvent wOk cfgAll memptyMap ev1).mappings (extract_event_id ev1) =
      some { discord_id :=
               (create_discord_event_direct wOk ev1
                 (transform_to_google_event wOk ev1)).1
             google_id := (create_google_event wOk cfgAll ev1).1.1
             google_calendar_id := (create_google_event wOk cfgAll ev1).1.2
             last_modified := ev1.modified_date.getD ""
             status := ev1.status.getD "confirmed"
             title := ev1.title.getD "No title"
             action_network_url := ev1.browser_url.getD "" } :=
  ⟨by decide, by decide, rfl, rfl,
    (c1_create_google_first wOk cfgAll memptyMap ev1 (by decide) (by decide) rfl).2 rfl⟩

/-! ## Claim C2 -/

/-- Claim C2 (confirmed).  For every cancelled source event: if its id has a
mapping row (and the platforms holding recorded ids are configured, with the
row's two Google fields recorded together, as the engine always records
them), a delete is issued to exactly the platforms holding a recorded
destination id — the call list is a fixed function of the row, independent of
every delete outcome, so one platform's failure cannot block the other — and
the mapping row is dropped for every outcome; if it has no mapping row, the
pass performs zero platform calls for it and leaves the table untouched. -/
theorem c2_cancelled_deletes :
    ∀ (w : World) (cfg : Config) (m : Mappings) (e : ANEvent),
      e.status.getD "confirmed" = "cancelled" →
      extract_event_id e ≠ "" →
      ((∀ row, m (extract_event_id e) = some row →
          w.discordConfigured = true →
          w.googleConfigured = true →
          pyTruthy row.google_id = pyTruthy row.google_calendar_id →
          ((processEvent w cfg m e).calls =
            (if pyTruthy row.discord_id then
              [PlatformCall.discordDelete (row.discord_id.getD "")] else []) ++
            (if pyTruthy row.google_id then
              [PlatformCall.googleDelete (row.google_calendar_id.getD "")
                (row.google_id.getD "")] else []) ∧
           (processEvent w cfg m e).mappings (extract_event_id e) = none)) ∧
       (m (extract_event_id e) = none →
          (processEvent w cfg m e).calls = [] ∧
          (processEvent w cfg m e).mappings = m)) := by
  intro w cfg m e hcan hid
  constructor
  · intro row hrow hdc hgc hwf
    constructor
    · simp only [processEvent, if_neg hid, hcan, if_pos rfl, hrow]
      simp only [delete_discord_event_direct, delete_google_event, hdc, hgc,
        Bool.not_true, Bool.false_eq_true, if_false]
      rw [← hwf, Bool.and_self]
      by_cases hd : pyTruthy row.discord_id
      · by_cases hg : pyTruthy row.google_id
        · simp [hd, hg]
        · simp only [Bool.not_eq_true] at hg
          simp [hd, hg]
      · simp only [Bool.not_eq_true] at hd
        by_cases hg : pyTruthy row.google_id
        · simp [hd, hg]
        · simp only [Bool.not_eq_true] at hg
          simp [hd, hg]
    · simp only [processEvent, if_neg hid, hcan, if_pos rfl, hrow]
      simp [mdel]
  · intro hnone
    simp [processEvent, if_neg hid, hcan, hnone]

/-- Witness for the C2 theorem at a concrete cancelled, fully-mapped event. -/
theorem c2_witness :
    evCancelled.status.getD "confirmed" = "cancelled" ∧
    extract_event_id evCancelled ≠ "" ∧
    m1 (extract_event_id evCancelled) = some row1 ∧
    ((processEvent wOk cfgAll m1 evCancelled).calls =
      (if pyTruthy row1.discord_id then
        [PlatformCall.discordDelete (row1.discord_id.getD "")] else []) ++
      (if pyTruthy row1.google_id then
        [PlatformCall.googleDelete (row1.google_calendar_id.getD "")
          (row1.google_id.getD "")] else []) ∧
     (processEvent wOk cfgAll m1 evCancelled).mappings
       (extract_event_id evCancelled) = none) :=
  ⟨rfl, by decide, rfl,
    (c2_cancelled_deletes wOk cfgAll m1 evCancelled rfl (by decide)).1
      row1 rfl rfl rfl rfl⟩

/-! ## Claim C9 -/

theorem delete_google_calls_shape (w : World) (gid cal : String) :
    ∀ c ∈ (delete_google_event w gid cal).2, ∃ a b, c = PlatformCall.googleDelete a b := by
  intro c hc
  simp only [delete_google_event] at hc
  repeat' split at hc
  all_goals simp at hc
  all_goals exact ⟨_, _, hc⟩

theorem delete_discord_calls_shape (w : World) (did : String) :
    ∀ c ∈ (delete_discord_event_direct w did).2, ∃ d, c = PlatformCall.discordDelete d := by
  intro c hc
  simp only [delete_discord_event_direct] at hc
  repeat' split at hc
  all_goals simp at hc
  all_goals exact ⟨_, hc⟩

/-- A Discord create call can appear in an event's calls only when the Google
create of that event succeeded (returned a truthy id). -/
theorem discordCreate_after_google (w : World) (cfg : Config) (m : Mappings)
    (e : ANEvent) (p : DiscordPayload) :
    PlatformCall.discordCreate p ∈ (processEvent w cfg m e).calls →
    pyTruthy (create_google_event w cfg e).1.1 = true := by
  intro hc
  by_cases hid : extract_event_id e = ""
  · simp [processEvent, hid] at hc
  · simp only [processEvent, if_neg hid] at hc
    by_cases hcan : e.status.getD "confirmed" = "cancelled"
    · rw [if_pos hcan] at hc
      repeat' split at hc
      all_goals simp only [List.mem_append] at hc
      all_goals
        first
          | (rcases hc with hc | hc <;>
              first
                | (obtain ⟨_, heq⟩ := delete_discord_calls_shape _ _ _ hc
                   simp at heq)
                | (obtain ⟨_, _, heq⟩ := delete_google_calls_shape _ _ _ _ hc
                   simp at heq)
                | simp at hc)
    · rw [if_neg hcan] at hc
      repeat' split at hc
      all_goals simp only [List.mem_append] at hc
      all_goals
        first
          | assumption
          | (rcases hc with hc | hc <;>
              first
                | (obtain ⟨_, _, heq⟩ := create_google_calls_shape _ _ _ _ hc
                   simp at heq)
                | (obtain ⟨_, _, _, heq⟩ := update_google_calls_shape _ _ _ _ _ hc
                   simp at heq)
                | (obtain ⟨_, _, heq⟩ := update_discord_calls_shape _ _ _ _ _ hc
                   simp at heq)
                | assumption
                | simp at hc)
          | (obtain ⟨_, _, heq⟩ := create_google_calls_shape _ _ _ _ hc
             simp at heq)

/-- Every mapping table the engine writes keeps the invariant that each row
has truthy Google event and calendar ids. -/
theorem processEvent_WF (w : World) (cfg : Config) (m : Mappings) (e : ANEvent)
    (hWF : WFmap m) : WFmap (processEvent w cfg m e).mappings := by
  have hmdel : ∀ k2, WFmap (mdel m k2) := by
    intro k2 k r hk
    simp only [mdel] at hk
    split at hk
    · exact absurd hk (by simp)
    · exact hWF k r hk
  have hmset : ∀ k2 row, WFrow row → WFmap (mset m k2 row) := by
    intro k2 row hrow k r hk
    simp only [mset] at hk
    split at hk
    · cases hk
      exact hrow
    · exact hWF k r hk
  by_cases hid : extract_event_id e = ""
  · have hq : (processEvent w cfg m e).mappings = m := by
      simp [processEvent, hid]
    rw [hq]
    exact hWF
  · by_cases hcan : e.status.getD "confirmed" = "cancelled"
    · cases hm : m (extract_event_id e) with
      | none =>
        have hq : (processEvent w cfg m e).mappings = m := by
          simp [processEvent, if_neg hid, hcan, hm]
        rw [hq]
        exact hWF
      | some stored =>
        have hq : (processEvent w cfg m e).mappings = mdel m (extract_event_id e) := by
          simp [processEvent, if_neg hid, hcan, hm]
        rw [hq]
        exact hmdel _
    · cases hm : m (extract_event_id e) with
      | none =>
        by_cases hg : pyTruthy (create_google_event w cfg e).1.1 = true
        · have hq : (processEvent w cfg m e).mappings =
              mset m (extract_event_id e)
                { discord_id :=
                    (create_discord_event_direct w e (transform_to_google_event w e)).1
                  google_id := (create_google_event w cfg e).1.1
                  google_calendar_id := (create_google_event w cfg e).1.2
                  last_modified := e.modified_date.getD ""
                  status := e.status.getD "confirmed"
                  title := e.title.getD "No title"
                  action_network_url := e.browser_url.getD "" } := by
            simp [processEvent, if_neg hid, if_neg hcan, hm, hg]
          rw [hq]
          exact hmset _ _ ⟨hg, create_google_truthy_cal w cfg e hg⟩
        · have hq : (processEvent w cfg m e).mappings = m := by
            simp [processEvent, if_neg hid, if_neg hcan, hm, hg]
          rw [hq]
          exact hWF
      | some stored =>
        by_cases hu : (e.modified_date.getD "" != stored.last_modified ||
            e.status.getD "confirmed" != stored.status) = true
        · cases ht : transform_to_google_event w e with
          | none =>
            have hq : (processEvent w cfg m e).mappings = m := by
              simp [processEvent, if_neg hid, if_neg hcan, hm, hu, ht]
            rw [hq]
            exact hWF
          | some g =>
            by_cases hs : (pyTruthy (if (pyTruthy stored.google_id &&
                  pyTruthy stored.google_calendar_id) = true then
                  update_google_event w (stored.google_id.getD "")
                    (stored.google_calendar_id.getD "") e
                else (none, [])).1 ||
                pyTruthy (if pyTruthy stored.discord_id = true then
                  update_discord_event_direct w (stored.discord_id.getD "") e (some g)
                else (none, [])).1) = true
            · have hq : (processEvent w cfg m e).mappings =
                  mset m (extract_event_id e)
                    { stored with
                        last_modified := e.modified_date.getD ""
                        status := e.status.getD "confirmed"
                        title := e.title.getD "No title" } := by
                simp only [processEvent, if_neg hid, if_neg hcan, hm, hu, ht,
                  if_true, hs]
              rw [hq]
              exact hmset _ _ ⟨(hWF _ stored hm).1, (hWF _ stored hm).2⟩
            · have hq : (processEvent w cfg m e).mappings = m := by
                simp only [processEvent, if_neg hid, if_neg hcan, hm, hu, ht,
                  if_true]
                rw [if_neg hs]
              rw [hq]
              exact hWF
        · have hq : (processEvent w cfg m e).mappings = m := by
            simp [processEvent, if_neg hid, if_neg hcan, hm, hu]
          rw [hq]
          exact hWF

/-- Claim C9 (confirmed).  Every row ever present in the mapping table has a
truthy (hence non-null) Google Calendar event id and calendar id — the
invariant is preserved by whole sync passes from any table satisfying it (the
empty post-restart table trivially does) — and, for any event of the pass,
a Discord create is attempted only when the Google create succeeded, so a
Discord-only mapping can never exist. -/
theorem c9_mapping_invariant :
    ∀ (w : World) (cfg : Config) (m : Mappings) (es : List ANEvent),
      WFmap m →
      WFmap (sync_events w cfg m es).mappings ∧
      (∀ (e : ANEvent) (p : DiscordPayload),
        PlatformCall.discordCreate p ∈ (processEvent w cfg m e).calls →
        pyTruthy (create_google_event w cfg e).1.1 = true) := by
  intro w cfg m es hWF
  constructor
  · induction es generalizing m with
    | nil => exact hWF
    | cons e rest ih =>
      exact ih _ (processEvent_WF w cfg m e hWF)
  · intro e p hc
    exact discordCreate_after_google w cfg m e p hc

/-- Witness for the C9 theorem: a full create pass from the empty table. -/
theorem c9_witness :
    WFmap memptyMap ∧
    WFmap (sync_events wOk cfgAll memptyMap [ev1]).mappings :=
  have h0 : WFmap memptyMap := fun _ r hr => absurd hr (by simp [memptyMap])
  ⟨h0, (c9_mapping_invariant wOk cfgAll memptyMap [ev1] h0).1⟩

/-! ## Claim C5 -/

/-- Claim C5 (corrected) — counterexample to the claim as stated.  `ev5`
lists a colon-free identifier string before a colon-bearing one.  The claim's
precedence (first colon-bearing identifier wins over colon-free ones) demands
`"abc"`, but the loop breaks at the first string identifier of either kind,
so the engine derives `"plain"`. -/
theorem c5_counterexample :
    ev5.identifiers =
      [IdentVal.str "plain", IdentVal.str "action_network:abc"] ∧
    afterLast ':' "action_network:abc" = "abc" ∧
    extract_event_id ev5 = "plain" ∧
    extract_event_id ev5 ≠ afterLast ':' "action_network:abc" := by
  refine ⟨rfl, by decide, by decide, by decide⟩

/-- Claim C5 (corrected, amended).  The mapping key is derived with this
precedence: (1) the first identifier string in list order (non-strings
skipped), taking the suffix after its last colon when it contains one and the
string verbatim otherwise — a later colon-bearing identifier is never
preferred over an earlier colon-free one; (2) when no string identifier
exists (or step 1 produced the empty string) the event's generic `id` field;
(3) then the final path segment of its browser URL; and if everything yields
the empty string, the event is skipped: the pass performs no platform call
for it, changes nothing, and it is never created, updated, or deleted. -/
theorem c5_identifier_precedence :
    ∀ (e : ANEvent),
      (∀ s, firstStrIdent e.identifiers = some s →
        (s.data.contains ':' = true → afterLast ':' s ≠ "" →
            extract_event_id e = afterLast ':' s) ∧
        (s.data.contains ':' = false → s ≠ "" → extract_event_id e = s)) ∧
      (identStep1 e = "" → e.id.getD "" ≠ "" →
          extract_event_id e = e.id.getD "") ∧
      (identStep1 e = "" → e.id.getD "" = "" →
          e.browser_url.getD "" ≠ "" →
          extract_event_id e = afterLast '/' (e.browser_url.getD "")) ∧
      (identStep1 e = "" → e.id.getD "" = "" →
          e.browser_url.getD "" = "" →
          extract_event_id e = "") ∧
      (extract_event_id e = "" →
        ∀ (w : World) (cfg : Config) (m : Mappings),
          processEvent w cfg m e = ⟨m, [], Outcome.skippedNoId, 0, 0, 0⟩) := by
  intro e
  refine ⟨?_, ?_, ?_, ?_, ?_⟩
  · intro s hs
    constructor
    · intro hcolon hne
      have hcolon2 : ':' ∈ s.data := by simpa using hcolon
      simp [extract_event_id, identStep1, hs, hcolon2, hne]
    · intro hcolon hne
      have hcolon2 : ':' ∉ s.data := by simpa using hcolon
      simp [extract_event_id, identStep1, hs, hcolon2, hne]
  · intro hstep hne
    simp [extract_event_id, hstep, hne]
  · intro hstep hid hurl
    simp [extract_event_id, hstep, hid, hurl]
  · intro hstep hid hurl
    simp [extract_event_id, hstep, hid, hurl]
  · intro hempty w cfg m
    simp [processEvent, hempty]

/-- Witness for the amended C5 theorem, exercising both a colon-bearing
identifier and the fall-through to the `id` field when step 1 derives the
empty string. -/
theorem c5_witness :
    (firstStrIdent ev1.identifiers = some "action_network:abc-123" ∧
     ("action_network:abc-123").data.contains ':' = true ∧
     afterLast ':' "action_network:abc-123" ≠ "" ∧
     extract_event_id ev1 = afterLast ':' "action_network:abc-123") ∧
    (identStep1 ev5b = "" ∧
     ev5b.id.getD "" ≠ "" ∧
     extract_event_id ev5b = ev5b.id.getD "") :=
  ⟨⟨by decide, by decide, by decide,
      ((c5_identifier_precedence ev1).1 "action_network:abc-123" (by decide)).1
        (by decide) (by decide)⟩,
    ⟨by decide, by decide,
      (c5_identifier_precedence ev5b).2.1 (by decide) (by decide)⟩⟩

/-! ## Claim C6 -/

/-- Claim C6 (corrected) — counterexample to the claim as stated.  In a
configuration whose DSA calendar is unset, a description containing both
`#dsa` (first in declaration order) and `#action` routes to the Direct Action
calendar: the first hashtag present in the description does NOT win when its
calendar id is unconfigured. -/
theorem c6_counterexample :
    containsSub "#dsa" (pyLower (ev6.description.getD "")) = true ∧
    cfg6.dsa = none ∧
    get_google_calendar_id cfg6 ev6 = ("#action", some "CAL_ACTION") := by
  refine ⟨by decide, rfl, by decide⟩

/-- Claim C6 (corrected, amended).  The resolver scans the lower-cased
description for the fixed hashtag set in declaration order; the first hashtag
that is present in the description (anywhere — position in the text is
irrelevant) AND whose calendar id is configured wins; if no hashtag
qualifies, the configured default DSA calendar is used; and when the
resolved calendar is unconfigured (in particular when even the default is
unset) the event is skipped for Google Calendar — `create_google_event`
performs no call and returns the failure pair, a warning rather than an
error. -/
theorem c6_hashtag_routing :
    ∀ (cfg : Config) (e : ANEvent),
      (get_google_calendar_id cfg e =
        (let d := pyLower (e.description.getD "")
         if containsSub "#dsa" d && pyTruthy cfg.dsa then ("#dsa", cfg.dsa)
         else if containsSub "#action" d && pyTruthy cfg.direct_action then
           ("#action", cfg.direct_action)
         else if containsSub "#education" d && pyTruthy cfg.education then
           ("#education", cfg.education)
         else if containsSub "#outreach" d && pyTruthy cfg.outreach then
           ("#outreach", cfg.outreach)
         else if containsSub "#social" d && pyTruthy cfg.socials then
           ("#social", cfg.socials)
         else if containsSub "#steering" d && pyTruthy cfg.steering then
           ("#steering", cfg.steering)
         else if containsSub "#volunteer" d && pyTruthy cfg.volunteering then
           ("#volunteer", cfg.volunteering)
         else ("none (defaulted to DSA)",
           if pyTruthy cfg.dsa then cfg.dsa else none))) ∧
      (∀ w : World, pyTruthy (get_google_calendar_id cfg e).2 = false →
          create_google_event w cfg e = ((none, none), [])) := by
  intro cfg e
  constructor
  · simp only [get_google_calendar_id, hashtagMapping, List.find?]
    repeat' split
    all_goals simp_all
  · intro w hcal
    simp only [create_google_event, hcal]
    split
    · rfl
    · simp

/-- Witness for the amended C6 theorem: an unconfigured default makes the
event skip Google entirely. -/
theorem c6_witness :
    pyTruthy (get_google_calendar_id { } { description := some "no tags" }).2 = false ∧
    create_google_event wOk { } { description := some "no tags" } = ((none, none), []) :=
  ⟨rfl,
    (c6_hashtag_routing { } { description := some "no tags" }).2 wOk rfl⟩

/-! ## Claim C8 -/

theorem strData_append (a b : String) : (a ++ b).data = a.data ++ b.data := by
  cases a
  cases b
  rfl

/-- Claim C8 (corrected) — counterexample to the claim as stated.  The
description `"Hi..."` survives the pipeline untruncated (it is well under
1000 characters), yet the delivered description ends in `"..."`: ending in
`"..."` does not imply truncation, so "ends in '...' exactly when truncated"
fails in the right-to-left direction. -/
theorem c8_counterexample :
    discordDescription ev8 = "Hi..." ∧
    (discordBase ev8).length ≤ 1000 ∧
    discordDescription ev8 = discordBase ev8 ∧
    "...".data <:+ (discordDescription ev8).data :=
  ⟨by decide, by decide, by decide, ⟨"Hi".data, by decide⟩⟩

/-- Claim C8 (corrected, amended).  For every event sent to Discord (create
or update), the delivered description is the cleaned description — HTML tags
stripped and whitespace collapsed when the raw description is nonempty, with
the `Register: <url>` line merged in (`discordBase`) — truncated to its first
997 characters plus `"..."` when it exceeds 1000 characters and passed
through unchanged otherwise; so the delivered description is always at most
1000 characters (exactly 1000 when truncated) and ends in `"..."` whenever it
was truncated. -/
theorem c8_discord_truncation :
    ∀ (e : ANEvent),
      (discordDescription e).length ≤ 1000 ∧
      ((discordBase e).length > 1000 →
        discordDescription e = String.mk ((discordBase e).data.take 997) ++ "..." ∧
        "...".data <:+ (discordDescription e).data ∧
        (discordDescription e).length = 1000) ∧
      ((discordBase e).length ≤ 1000 → discordDescription e = discordBase e) ∧
      (∀ (w : World) (g : Option GoogleEvent) (p : DiscordPayload),
        PlatformCall.discordCreate p ∈ (create_discord_event_direct w e g).2 →
        p.description = discordDescription e) ∧
      (∀ (w : World) (did q : String) (g : Option GoogleEvent) (p : DiscordPayload),
        PlatformCall.discordUpdate q p ∈ (update_discord_event_direct w did e g).2 →
        p.description = discordDescription e) := by
  intro e
  have hdata : ∀ l : List Char, (String.mk l ++ "...").length = l.length + 3 := by
    intro l
    show (String.mk l ++ "...").data.length = l.length + 3
    rw [strData_append]
    simp
  have htrunc : (discordBase e).length > 1000 →
      discordDescription e = String.mk ((discordBase e).data.take 997) ++ "..." := by
    intro h
    simp [discordDescription, h]
  have hlen : (discordBase e).length = (discordBase e).data.length := rfl
  refine ⟨?_, fun h => ⟨htrunc h, ?_, ?_⟩, ?_, ?_, ?_⟩
  · by_cases h : (discordBase e).length > 1000
    · rw [htrunc h]
      show (String.mk ((discordBase e).data.take 997) ++ "...").data.length ≤ 1000
      rw [strData_append]
      simp only [List.length_append, List.length_take]
      simp
    · have : discordDescription e = discordBase e := by
        simp [discordDescription, h]
      rw [this]
      omega
  · rw [htrunc h]
    exact ⟨((discordBase e).data.take 997), by rw [strData_append]⟩
  · rw [htrunc h]
    show (String.mk ((discordBase e).data.take 997) ++ "...").data.length = 1000
    rw [strData_append]
    simp only [List.length_append, List.length_take]
    simp
    omega
  · intro h
    simp [discordDescription, Nat.not_lt.mpr h]
  · intro w g p hc
    simp only [create_discord_event_direct] at hc
    repeat' split at hc
    all_goals simp at hc
    all_goals (rw [hc]; rfl)
  · intro w did q g p hc
    simp only [update_discord_event_direct] at hc
    repeat' split at hc
    all_goals simp at hc
    all_goals (rw [hc.2]; rfl)

set_option maxRecDepth 8000 in
/-- Witness for the amended C8 theorem at a 1100-character description. -/
theorem c8_witness :
    (discordBase evLong).length > 1000 ∧
    discordDescription evLong =
      String.mk ((discordBase evLong).data.take 997) ++ "..." ∧
    (discordDescription evLong).length = 1000 :=
  ⟨by decide, ((c8_discord_truncation evLong).2.1 (by decide)).1,
    ((c8_discord_truncation evLong).2.1 (by decide)).2.2⟩

/-! ## Claim C4 -/

/-- Claim C4 (corrected) — counterexample to the claim as stated.  The bare
date `"2025-07-01"` carries neither a `Z` marker nor a numeric offset, so by
the claim it should be interpreted as US Central and converted (midnight
Central on that date is `"2025-07-01T05:00:00Z"` UTC).  But the code's offset
heuristic — a `-` anywhere after the last `T`, here the date's own hyphens
because no `T` is present — passes it through unchanged. -/
theorem c4_counterexample :
    convert_to_utc (some "2025-07-01") = some "2025-07-01" ∧
    strEndsWith "2025-07-01" "Z" = false ∧
    fromisoformat "2025-07-01" = some ⟨2025, 7, 1, 0, 0, 0, 0⟩ ∧
    isCDT ⟨2025, 7, 1, 0, 0, 0, 0⟩ = true ∧
    isoformatZ (addHours ⟨2025, 7, 1, 0, 0, 0, 0⟩ 5) = "2025-07-01T05:00:00Z" ∧
    ("2025-07-01" : String) ≠ "2025-07-01T05:00:00Z" :=
  ⟨by decide, by decide, by decide, by decide, by decide, by decide⟩

/-- Claim C4 (corrected, amended).  For every timestamp string the normalizer
processes: if it ends with `Z`, the marker is stripped, the naive value is
interpreted as US Central (the 5-hour CDT or 6-hour CST shift) and converted
to true UTC; it is passed through unchanged when it contains a `+` anywhere
or a `-` after the last `T` — the code's heuristic for an explicit numeric
offset, which also passes through offset-free strings whose hyphens follow no
`T`, such as bare dates; a string triggering neither branch is interpreted as
US Central and converted to true UTC; and on any parse failure the original
string is returned unmodified.  In particular `'2025-07-01T19:00:00Z'`
converts to `'2025-07-02T00:00:00Z'`. -/
theorem c4_timestamp_policy :
    (∀ (s : String) (dt : NaiveDT),
        strEndsWith s "Z" = true →
        fromisoformat (String.mk s.data.dropLast) = some dt →
        (addHours dt (if isCDT dt then 5 else 6)).year ≤ 9999 →
        convert_to_utc (some s) =
          some (isoformatZ (addHours dt (if isCDT dt then 5 else 6)))) ∧
    (∀ s : String, strEndsWith s "Z" = true →
        fromisoformat (String.mk s.data.dropLast) = none →
        convert_to_utc (some s) = some s) ∧
    (∀ s : String, s ≠ "" → strEndsWith s "Z" = false →
        (s.data.contains '+' || (afterLast 'T' s).data.contains '-') = true →
        convert_to_utc (some s) = some s) ∧
    (∀ (s : String) (dt : NaiveDT), s ≠ "" →
        strEndsWith s "Z" = false →
        (s.data.contains '+' || (afterLast 'T' s).data.contains '-') = false →
        fromisoformat s = some dt →
        (addHours dt (if isCDT dt then 5 else 6)).year ≤ 9999 →
        convert_to_utc (some s) =
          some (isoformatZ (addHours dt (if isCDT dt then 5 else 6)))) ∧
    (∀ s : String, s ≠ "" → strEndsWith s "Z" = false →
        (s.data.contains '+' || (afterLast 'T' s).data.contains '-') = false →
        fromisoformat s = none →
        convert_to_utc (some s) = some s) ∧
    convert_to_utc (some "") = none ∧
    convert_to_utc (some "2025-07-01T19:00:00Z") = some "2025-07-02T00:00:00Z" := by
  have hzne : ∀ s : String, strEndsWith s "Z" = true → s ≠ "" := by
    intro s hz he
    rw [he] at hz
    exact absurd hz (by decide)
  have hcu : ∀ s : String, s ≠ "" → convert_to_utc (some s) = some (convertStr s) := by
    intro s hne
    simp [convert_to_utc, hne]
  refine ⟨?_, ?_, ?_, ?_, ?_, by decide, by decide⟩
  · intro s dt hz hdt hyear
    rw [hcu s (hzne s hz)]
    unfold convertStr
    rw [if_pos hz, hdt]
    simp only [centralToUtc]
    rw [if_neg (by omega)]
  · intro s hz hdt
    rw [hcu s (hzne s hz)]
    unfold convertStr
    rw [if_pos hz, hdt]
  · intro s hne hz hplus
    rw [hcu s hne]
    unfold convertStr
    rw [if_neg (by simp [hz]), if_pos hplus]
  · intro s dt hne hz hplus hdt hyear
    rw [hcu s hne]
    unfold convertStr
    rw [if_neg (by simp [hz]), if_neg (by simpa using hplus), hdt]
    simp only [centralToUtc]
    rw [if_neg (by omega)]
  · intro s hne hz hplus hdt
    rw [hcu s hne]
    unfold convertStr
    rw [if_neg (by simp [hz]), if_neg (by simpa using hplus), hdt]

/-- Witness for the amended C4 theorem at the headline Central-mislabeled
timestamp. -/
theorem c4_witness :
    strEndsWith "2025-07-01T19:00:00Z" "Z" = true ∧
    fromisoformat (String.mk ("2025-07-01T19:00:00Z").data.dropLast) =
      some ⟨2025, 7, 1, 19, 0, 0, 0⟩ ∧
    (addHours ⟨2025, 7, 1, 19, 0, 0, 0⟩
      (if isCDT ⟨2025, 7, 1, 19, 0, 0, 0⟩ then 5 else 6)).year ≤ 9999 ∧
    convert_to_utc (some "2025-07-01T19:00:00Z") =
      some (isoformatZ (addHours ⟨2025, 7, 1, 19, 0, 0, 0⟩
        (if isCDT ⟨2025, 7, 1, 19, 0, 0, 0⟩ then 5 else 6))) :=
  ⟨by decide, by decide, by decide,
    c4_timestamp_policy.1 "2025-07-01T19:00:00Z" ⟨2025, 7, 1, 19, 0, 0, 0⟩
      (by decide) (by decide) (by decide)⟩

end AppSync
